import Mathlib

/-!
Verification of the ecotracker-ir integration (custom_components/ecotracker):
a shallow embedding of the polling coordinator (`sensor.py`), the sensor
readers, and the setup probe / config flow (`config_flow.py`), together with
theorems settling the specification claims.

JSON bodies are modelled as association lists of string keys and JSON values;
an HTTP exchange outcome is an inductive covering transport errors, timeouts
and responses with a status code and a (possibly unparseable) body.
-/

namespace Ecotracker

/-- A parsed JSON value, as produced by Python `response.json()`. -/
inductive JsonValue where
  | jnull
  | jbool (b : Bool)
  | jnum (n : Int)
  | jstr (s : String)
  | jarr (elems : List JsonValue)
  | jobj (fields : List (String × JsonValue))

/-- A parsed JSON object body, and equally a coordinator snapshot: the
coordinator installs the parsed mapping verbatim (sensor.py line 114). -/
def Snapshot : Type := List (String × JsonValue)

/-- Python `data.get(key)` on a dict. -/
def dictGet (d : Snapshot) (k : String) : Option JsonValue :=
  List.lookup k d

/-- Python `key in data` on a dict. -/
def dictContains (d : Snapshot) (k : String) : Bool :=
  (dictGet d k).isSome

/-- How the body of an HTTP 200 exchange parsed: JSON decode failure or a
parsed object. -/
inductive BodyParse where
  | parseFailure (msg : String)
  | parsed (data : Snapshot)

/-- Outcome of one `session.get(url)` exchange: an `aiohttp.ClientError`, an
`asyncio.TimeoutError` from the 10-second `async_timeout`, or a response
carrying a status code and a body. -/
inductive FetchOutcome where
  | clientError (msg : String)
  | timeoutError
  | httpResponse (status : Nat) (body : BodyParse)

/-- The parsed object body of an exchange, when there is one. -/
def parsedBody : FetchOutcome → Option Snapshot
  | .httpResponse _ (.parsed data) => some data
  | _ => none

/-- sensor.py lines 38-46: the key list the coordinator checks on every poll.
All seven keys are checked with `all(key in data for key in ...)`. -/
def API_RESPONSE_JSON_KEYS : List String :=
  ["power", "powerPhase1", "powerPhase2", "powerPhase3", "powerAvg",
   "energyCounterIn", "energyCounterOut"]

/-- sensor.py line 48. -/
def API_ENDPOINT : String := "/v1/json"

/-- config_flow.py / sensor.py: default poll interval in seconds. -/
def DEFAULT_SCAN_INTERVAL : Int := 5

/-- sensor.py line 60: the URL the coordinator polls. -/
def coordinatorUrl (ip : String) : String :=
  "http://" ++ ip ++ API_ENDPOINT

/-- config_flow.py line 38: the URL the setup probe fetches (no endpoint path). -/
def probeUrl (ip : String) : String :=
  "http://" ++ ip

/-- An exception escaping the `try` block of
`EcotrackerCoordinator._async_update_data` (sensor.py lines 102-114):
a transport `aiohttp.ClientError`, the timeout, an `UpdateFailed` raised at
lines 106 or 112, or another exception (e.g. a JSON decode error at 109). -/
inductive PollExc where
  | clientErr (msg : String)
  | timeoutErr
  | updateFailedExc (msg : String)
  | otherExc (msg : String)

/-- Python `str(err)` for a `PollExc`. -/
def pollExcMessage : PollExc → String
  | .clientErr m => m
  | .timeoutErr => ""
  | .updateFailedExc m => m
  | .otherExc m => m

/-- The `try` block body of `_async_update_data` (sensor.py lines 103-114):
non-200 status raises `UpdateFailed`, a parse failure raises the decoder's
exception, a parsed body missing any key of `API_RESPONSE_JSON_KEYS` raises
`UpdateFailed`, and otherwise the full parsed mapping is returned. -/
def coordinatorTryBody (resp : FetchOutcome) : Except PollExc Snapshot :=
  match resp with
  | .clientError m => .error (.clientErr m)
  | .timeoutError => .error .timeoutErr
  | .httpResponse status body =>
      if status ≠ 200 then
        .error (.updateFailedExc ("Error fetching data: HTTP " ++ toString status))
      else
        match body with
        | .parseFailure m => .error (.otherExc m)
        | .parsed data =>
            if API_RESPONSE_JSON_KEYS.all (fun key => dictContains data key) then
              .ok data
            else
              .error (.updateFailedExc "Missing required keys in response")

/-- `EcotrackerCoordinator._async_update_data` (sensor.py lines 100-118).
The `except` clauses are applied in source order: `aiohttp.ClientError` is
rewrapped as `UpdateFailed("Error communicating with API: ...")`; every other
exception — including the `UpdateFailed` raised inside the `try` itself — is
caught by the broad `except Exception` and rewrapped as
`UpdateFailed("Unexpected error: ...")`. The result is the mapping returned to
the host coordinator, or the final `UpdateFailed` message. -/
def _async_update_data (resp : FetchOutcome) : Except String Snapshot :=
  match coordinatorTryBody resp with
  | .ok data => .ok data
  | .error (.clientErr m) => .error ("Error communicating with API: " ++ m)
  | .error e => .error ("Unexpected error: " ++ pollExcMessage e)

/-- Modelled from the spec: the host `DataUpdateCoordinator` (framework code,
not part of this repository) installs the mapping returned by
`_async_update_data` as the current snapshot, and on `UpdateFailed` leaves the
previous snapshot (possibly none, before the first success) unchanged. -/
def coordinatorStep (st : Option Snapshot) (resp : FetchOutcome) : Option Snapshot :=
  match _async_update_data resp with
  | .ok data => some data
  | .error _ => st

/-- The reader access `self.coordinator.data.get(field)` (sensor.py, each
sensor's `native_value`). The host coordinator's `data` is `None` before the
first successful refresh; Python `None.get(...)` raises `AttributeError`,
modelled as the error case. -/
def coordinatorDataGet (data : Option Snapshot) (field : String) :
    Except String (Option JsonValue) :=
  match data with
  | none => .error "AttributeError: NoneType object has no attribute get"
  | some snap => .ok (dictGet snap field)

/-- `EcotrackerPowerSensor.native_value` (sensor.py lines 153-156). -/
def EcotrackerPowerSensor.native_value (data : Option Snapshot) :
    Except String (Option JsonValue) :=
  coordinatorDataGet data "power"

/-- `EcotrackerPowerAvgSensor.native_value` (sensor.py lines 225-228). -/
def EcotrackerPowerAvgSensor.native_value (data : Option Snapshot) :
    Except String (Option JsonValue) :=
  coordinatorDataGet data "powerAvg"

/-- `EcotrackerEnergyInSensor.native_value` (sensor.py lines 243-246). -/
def EcotrackerEnergyInSensor.native_value (data : Option Snapshot) :
    Except String (Option JsonValue) :=
  coordinatorDataGet data "energyCounterIn"

/-- config_flow.py line 51: the keys the setup probe requires. -/
def PROBE_REQUIRED_KEYS : List String :=
  ["power", "energyCounterIn", "energyCounterOut"]

/-- An exception escaping the `try` block of `validate_input`
(config_flow.py lines 42-52): a transport `aiohttp.ClientError`, the timeout,
the `CannotConnect` raised at line 46, the `InvalidData` raised at line 52, or
another exception (e.g. a JSON decode error at line 48). -/
inductive ProbeExc where
  | clientErr (msg : String)
  | timeoutErr
  | cannotConnectExc (msg : String)
  | invalidDataExc (msg : String)
  | otherExc (msg : String)

/-- Python `str(err)` for a `ProbeExc`. -/
def probeExcMessage : ProbeExc → String
  | .clientErr m => m
  | .timeoutErr => ""
  | .cannotConnectExc m => m
  | .invalidDataExc m => m
  | .otherExc m => m

/-- The `try` block body of `validate_input` (config_flow.py lines 43-52):
non-200 raises `CannotConnect("HTTP <status>")`, a parse failure raises the
decoder's exception, and a parsed body missing any of the three required keys
raises `InvalidData("Missing required keys in JSON response")`. -/
def probeTryBody (resp : FetchOutcome) : Except ProbeExc Unit :=
  match resp with
  | .clientError m => .error (.clientErr m)
  | .timeoutError => .error .timeoutErr
  | .httpResponse status body =>
      if status ≠ 200 then
        .error (.cannotConnectExc ("HTTP " ++ toString status))
      else
        match body with
        | .parseFailure m => .error (.otherExc m)
        | .parsed data =>
            if PROBE_REQUIRED_KEYS.all (fun key => dictContains data key) then
              .ok ()
            else
              .error (.invalidDataExc "Missing required keys in JSON response")

/-- A failure surfaced by `validate_input` to its caller. -/
inductive SetupError where
  | cannotConnect (msg : String)
  | invalidData (msg : String)

/-- `validate_input` (config_flow.py lines 34-59). The `except` clauses run in
source order: `aiohttp.ClientError` becomes
`CannotConnect("Connection error: ...")`; every other exception — including
the `CannotConnect` and `InvalidData` raised inside the `try` — is caught by
the broad `except Exception` at line 56 and rewrapped as
`CannotConnect("Unexpected error: ...")`. On success the title dict is
returned. -/
def validate_input (ip : String) (resp : FetchOutcome) : Except SetupError String :=
  match probeTryBody resp with
  | .ok () => .ok ("Ecotracker (" ++ ip ++ ")")
  | .error (.clientErr m) => .error (.cannotConnect ("Connection error: " ++ m))
  | .error e => .error (.cannotConnect ("Unexpected error: " ++ probeExcMessage e))

/-- The error classification of `ConfigFlow.async_step_user`
(config_flow.py lines 73-84): `CannotConnect` sets `errors["base"]` to
`"cannot_connect"`, `InvalidData` sets it to `"invalid_data"`; on success an
entry is created (no error). -/
def async_step_user_errors (r : Except SetupError String) : Option String :=
  match r with
  | .ok _ => none
  | .error (.cannotConnect _) => some "cannot_connect"
  | .error (.invalidData _) => some "invalid_data"

/-- A value submitted for the `scan_interval` field of the setup form:
an integer or a string (the two shapes an HTML form / voluptuous input takes
before `vol.Coerce(int)` runs). -/
inductive VolValue where
  | vint (n : Int)
  | vstr (s : String)

/-- The numeric value of a decimal digit character, `none` otherwise. -/
def charDigit (c : Char) : Option Nat :=
  if 48 ≤ c.toNat ∧ c.toNat ≤ 57 then some (c.toNat - 48) else none

/-- Accumulate decimal digits left to right; `none` on any non-digit. -/
def parseNatChars : List Char → Nat → Option Nat
  | [], acc => some acc
  | c :: rest, acc =>
      match charDigit c with
      | some d => parseNatChars rest (acc * 10 + d)
      | none => none

/-- Python `int()` applied to a string: an optional sign followed by at least
one decimal digit; anything else raises `ValueError` (modelled by `none`). -/
def pyInt (s : String) : Option Int :=
  match s.data with
  | [] => none
  | '-' :: rest =>
      if rest = [] then none
      else (parseNatChars rest 0).map (fun n => -(n : Int))
  | '+' :: rest =>
      if rest = [] then none
      else (parseNatChars rest 0).map (fun n => (n : Int))
  | cs => (parseNatChars cs 0).map (fun n => (n : Int))

/-- `vol.Coerce(int)` (config_flow.py line 28): an int passes through, a
string is parsed as a decimal integer by Python `int()`; anything unparseable
raises `CoerceInvalid` (modelled by `none`). -/
def coerceInt : VolValue → Option Int
  | .vint n => some n
  | .vstr s => pyInt s

/-- `vol.Range(min=1, max=3600)` (config_flow.py line 28): passes the value
through when in range, raises otherwise (modelled by `none`). -/
def volRange (lo hi n : Int) : Option Int :=
  if lo ≤ n ∧ n ≤ hi then some n else none

/-- The `scan_interval` entry of `STEP_USER_DATA_SCHEMA` (config_flow.py
lines 24-31): when the field is omitted the default 5 applies; otherwise
`vol.All(vol.Coerce(int), vol.Range(min=1, max=3600))` runs the coercion then
the range check. `none` models a schema rejection. -/
def validateScanIntervalField : Option VolValue → Option Int
  | none => some DEFAULT_SCAN_INTERVAL
  | some v => (coerceInt v).bind (volRange 1 3600)

/-- Inversion: `_async_update_data` returns a mapping only for an HTTP 200
exchange whose body parsed to exactly that mapping with every key of
`API_RESPONSE_JSON_KEYS` present. -/
theorem updateData_ok_inversion (resp : FetchOutcome) (d : Snapshot)
    (h : _async_update_data resp = .ok d) :
    resp = .httpResponse 200 (.parsed d) ∧
    API_RESPONSE_JSON_KEYS.all (fun key => dictContains d key) = true := by
  cases resp with
  | clientError m => exact absurd h (by simp [_async_update_data, coordinatorTryBody])
  | timeoutError => exact absurd h (by simp [_async_update_data, coordinatorTryBody])
  | httpResponse status body =>
    by_cases hs : status = 200
    · subst hs
      cases body with
      | parseFailure m => exact absurd h (by simp [_async_update_data, coordinatorTryBody])
      | parsed data =>
        by_cases hall : API_RESPONSE_JSON_KEYS.all (fun key => dictContains data key) = true
        · have hd : data = d := by
            simpa [_async_update_data, coordinatorTryBody, hall] using h
          subst hd
          exact ⟨rfl, hall⟩
        · exact absurd h (by simp [_async_update_data, coordinatorTryBody, hall])
    · exact absurd h (by simp [_async_update_data, coordinatorTryBody, hs])

/-- C1: against a reachable host returning HTTP 200 with the parseable body
`{"foo": 1}` (a required key missing), `validate_input` does NOT surface
`InvalidData`: the `InvalidData` raised at config_flow.py line 52 is caught
by the broad `except Exception` at line 56 and rewrapped as `CannotConnect`,
so `async_step_user` records `errors["base"] = "cannot_connect"`, the same
classification as a connectivity failure. This evaluates the code at the
failing input of the code-bug report. -/
theorem c1_probe_misclassifies_invalid_body :
    validate_input "192.168.1.2"
        (.httpResponse 200 (.parsed [("foo", JsonValue.jnum 1)]))
      = .error (.cannotConnect "Unexpected error: Missing required keys in JSON response")
    ∧ async_step_user_errors (validate_input "192.168.1.2"
        (.httpResponse 200 (.parsed [("foo", JsonValue.jnum 1)])))
      = some "cannot_connect" :=
  ⟨rfl, rfl⟩

/-- C2 counterexample: the poll body
`{"power": 250, "energyCounterIn": 12345, "energyCounterOut": 67}` — which
the claim says passes validation — is rejected by the coordinator, because
`API_RESPONSE_JSON_KEYS` requires all seven keys including the phase and
average keys; no snapshot is installed. -/
theorem c2_three_key_body_rejected :
    _async_update_data (.httpResponse 200 (.parsed
        [("power", JsonValue.jnum 250), ("energyCounterIn", JsonValue.jnum 12345),
         ("energyCounterOut", JsonValue.jnum 67)]))
      = .error "Unexpected error: Missing required keys in response" ∧
    coordinatorStep none (.httpResponse 200 (.parsed
        [("power", JsonValue.jnum 250), ("energyCounterIn", JsonValue.jnum 12345),
         ("energyCounterOut", JsonValue.jnum 67)]))
      = none :=
  ⟨rfl, rfl⟩

/-- C2 (amended): the coordinator requires all seven keys of
`API_RESPONSE_JSON_KEYS`; for every poll body containing all seven, the poll
passes validation, the full body is installed as the snapshot, and on that
snapshot the `power` reader returns the body's `power` value and the
`energyCounterIn` reader returns the body's `energyCounterIn` value. -/
theorem c2_seven_key_body_accepted (data : Snapshot) (st : Option Snapshot)
    (h : API_RESPONSE_JSON_KEYS.all (fun key => dictContains data key) = true) :
    coordinatorStep st (.httpResponse 200 (.parsed data)) = some data ∧
    EcotrackerPowerSensor.native_value (some data) = .ok (dictGet data "power") ∧
    EcotrackerEnergyInSensor.native_value (some data)
      = .ok (dictGet data "energyCounterIn") := by
  refine ⟨?_, rfl, rfl⟩
  simp [coordinatorStep, _async_update_data, coordinatorTryBody, h]

/-- C2 witness: the first poll returning all seven keys with `power = 250`
and `energyCounterIn = 12345` installs the body, and the two readers return
250 and 12345. -/
theorem c2_seven_key_body_accepted_witness :
    coordinatorStep none (.httpResponse 200 (.parsed
        [("power", JsonValue.jnum 250), ("powerPhase1", JsonValue.jnum 80),
         ("powerPhase2", JsonValue.jnum 90), ("powerPhase3", JsonValue.jnum 80),
         ("powerAvg", JsonValue.jnum 240), ("energyCounterIn", JsonValue.jnum 12345),
         ("energyCounterOut", JsonValue.jnum 67)]))
      = some [("power", JsonValue.jnum 250), ("powerPhase1", JsonValue.jnum 80),
         ("powerPhase2", JsonValue.jnum 90), ("powerPhase3", JsonValue.jnum 80),
         ("powerAvg", JsonValue.jnum 240), ("energyCounterIn", JsonValue.jnum 12345),
         ("energyCounterOut", JsonValue.jnum 67)] ∧
    EcotrackerPowerSensor.native_value (some
        [("power", JsonValue.jnum 250), ("powerPhase1", JsonValue.jnum 80),
         ("powerPhase2", JsonValue.jnum 90), ("powerPhase3", JsonValue.jnum 80),
         ("powerAvg", JsonValue.jnum 240), ("energyCounterIn", JsonValue.jnum 12345),
         ("energyCounterOut", JsonValue.jnum 67)])
      = .ok (some (JsonValue.jnum 250)) ∧
    EcotrackerEnergyInSensor.native_value (some
        [("power", JsonValue.jnum 250), ("powerPhase1", JsonValue.jnum 80),
         ("powerPhase2", JsonValue.jnum 90), ("powerPhase3", JsonValue.jnum 80),
         ("powerAvg", JsonValue.jnum 240), ("energyCounterIn", JsonValue.jnum 12345),
         ("energyCounterOut", JsonValue.jnum 67)])
      = .ok (some (JsonValue.jnum 12345)) := by
  have h := c2_seven_key_body_accepted
      [("power", JsonValue.jnum 250), ("powerPhase1", JsonValue.jnum 80),
       ("powerPhase2", JsonValue.jnum 90), ("powerPhase3", JsonValue.jnum 80),
       ("powerAvg", JsonValue.jnum 240), ("energyCounterIn", JsonValue.jnum 12345),
       ("energyCounterOut", JsonValue.jnum 67)] none (by decide)
  exact ⟨h.1, h.2.1.trans (by rfl), h.2.2.trans (by rfl)⟩

/-- C3 counterexample: before any successful poll the coordinator holds no
snapshot (`data` is `None`), and the `powerAvg` reader's
`self.coordinator.data.get("powerAvg")` raises `AttributeError` rather than
returning the no-value sentinel. -/
theorem c3_no_snapshot_reader_raises :
    EcotrackerPowerAvgSensor.native_value none
      = .error "AttributeError: NoneType object has no attribute get" :=
  rfl

/-- C3 (amended): once a snapshot exists, the `powerAvg` reader returns the
no-value sentinel (`None`) without raising whenever the field is absent from
the current snapshot; only the no-snapshot state (excluded in operation by
the required first successful refresh) raises. -/
theorem c3_optional_reader_returns_none (snap : Snapshot)
    (h : dictGet snap "powerAvg" = none) :
    EcotrackerPowerAvgSensor.native_value (some snap) = .ok none := by
  simp [EcotrackerPowerAvgSensor.native_value, coordinatorDataGet, h]

/-- C3 witness: on a snapshot without `powerAvg`, the reader returns the
sentinel. -/
theorem c3_optional_reader_returns_none_witness :
    EcotrackerPowerAvgSensor.native_value (some [("power", JsonValue.jnum 1)])
      = .ok none :=
  c3_optional_reader_returns_none [("power", JsonValue.jnum 1)] rfl

/-- C4: a poll whose parsed body misses any key of the required set raises
`UpdateFailed` (rewrapped by the broad handler as
"Unexpected error: Missing required keys in response") and leaves the current
snapshot exactly as it was. -/
theorem c4_missing_key_preserves_snapshot (st : Option Snapshot) (data : Snapshot)
    (k : String) (hk : k ∈ API_RESPONSE_JSON_KEYS)
    (hm : dictContains data k = false) :
    _async_update_data (.httpResponse 200 (.parsed data))
      = .error "Unexpected error: Missing required keys in response" ∧
    coordinatorStep st (.httpResponse 200 (.parsed data)) = st := by
  have hall : API_RESPONSE_JSON_KEYS.all (fun key => dictContains data key) = false := by
    rw [List.all_eq_false]
    exact ⟨k, hk, by simp [hm]⟩
  have htb : coordinatorTryBody (.httpResponse 200 (.parsed data))
      = .error (.updateFailedExc "Missing required keys in response") := by
    simp [coordinatorTryBody, hall]
  have h1 : _async_update_data (.httpResponse 200 (.parsed data))
      = .error "Unexpected error: Missing required keys in response" := by
    unfold _async_update_data
    rw [htb]
    rfl
  exact ⟨h1, by simp [coordinatorStep, h1]⟩

/-- C4 witness: with a previous snapshot installed, a new body `{"power": 120}`
missing `energyCounterIn` fails validation and the previous snapshot stays. -/
theorem c4_missing_key_preserves_snapshot_witness :
    _async_update_data (.httpResponse 200 (.parsed [("power", JsonValue.jnum 120)]))
      = .error "Unexpected error: Missing required keys in response" ∧
    coordinatorStep
        (some [("power", JsonValue.jnum 100), ("energyCounterIn", JsonValue.jnum 5000),
               ("energyCounterOut", JsonValue.jnum 10)])
        (.httpResponse 200 (.parsed [("power", JsonValue.jnum 120)]))
      = some [("power", JsonValue.jnum 100), ("energyCounterIn", JsonValue.jnum 5000),
              ("energyCounterOut", JsonValue.jnum 10)] :=
  c4_missing_key_preserves_snapshot
    (some [("power", JsonValue.jnum 100), ("energyCounterIn", JsonValue.jnum 5000),
           ("energyCounterOut", JsonValue.jnum 10)])
    [("power", JsonValue.jnum 120)] "energyCounterIn" (by decide) (by decide)

/-- C5: a transport failure (`aiohttp.ClientError`), a timeout, or an HTTP
status other than 200 makes the poll raise `UpdateFailed` and leaves the
current snapshot unchanged. -/
theorem c5_fetch_failure_preserves_snapshot (st : Option Snapshot) :
    (∀ m, (∃ msg, _async_update_data (.clientError m) = .error msg) ∧
      coordinatorStep st (.clientError m) = st) ∧
    ((∃ msg, _async_update_data .timeoutError = .error msg) ∧
      coordinatorStep st .timeoutError = st) ∧
    (∀ status body, status ≠ 200 →
      (∃ msg, _async_update_data (.httpResponse status body) = .error msg) ∧
      coordinatorStep st (.httpResponse status body) = st) := by
  refine ⟨fun m => ⟨⟨_, rfl⟩, rfl⟩, ⟨⟨_, rfl⟩, rfl⟩, fun status body h => ?_⟩
  have h1 : _async_update_data (.httpResponse status body)
      = .error ("Unexpected error: " ++ ("Error fetching data: HTTP " ++ toString status)) := by
    simp [_async_update_data, coordinatorTryBody, h, pollExcMessage]
  exact ⟨⟨_, h1⟩, by simp [coordinatorStep, h1]⟩

/-- C5 witness: an HTTP 500 response leaves the previous snapshot in place
and the poll fails. -/
theorem c5_fetch_failure_preserves_snapshot_witness :
    (∃ msg, _async_update_data (.httpResponse 500 (.parseFailure ""))
      = Except.error msg) ∧
    coordinatorStep (some [("power", JsonValue.jnum 1)])
        (.httpResponse 500 (.parseFailure ""))
      = some [("power", JsonValue.jnum 1)] :=
  (c5_fetch_failure_preserves_snapshot
    (some [("power", JsonValue.jnum 1)])).2.2 500 (.parseFailure "") (by decide)

/-- C6: a successful poll installs exactly the full parsed JSON body as the
snapshot: the installed snapshot is the parsed mapping itself, so every key
present in the raw body appears in it with its parsed value. -/
theorem c6_success_installs_full_body (st : Option Snapshot) (resp : FetchOutcome)
    (d : Snapshot) (h : _async_update_data resp = .ok d) :
    parsedBody resp = some d ∧ coordinatorStep st resp = some d ∧
    ∀ body, parsedBody resp = some body →
      ∀ k v, dictGet body k = some v → dictGet d k = some v := by
  obtain ⟨hr, -⟩ := updateData_ok_inversion resp d h
  subst hr
  refine ⟨rfl, by simp [coordinatorStep, h], ?_⟩
  intro body hb k v hv
  simp only [parsedBody, Option.some.injEq] at hb
  rw [← hb] at hv
  exact hv

/-- C6 witness: a successful poll with an extra, non-required key `temp`
installs a snapshot that still contains `temp`. -/
theorem c6_success_installs_full_body_witness :
    parsedBody (.httpResponse 200 (.parsed
        [("power", JsonValue.jnum 1), ("powerPhase1", JsonValue.jnum 2),
         ("powerPhase2", JsonValue.jnum 3), ("powerPhase3", JsonValue.jnum 4),
         ("powerAvg", JsonValue.jnum 5), ("energyCounterIn", JsonValue.jnum 6),
         ("energyCounterOut", JsonValue.jnum 7), ("temp", JsonValue.jnum 8)]))
      = some [("power", JsonValue.jnum 1), ("powerPhase1", JsonValue.jnum 2),
         ("powerPhase2", JsonValue.jnum 3), ("powerPhase3", JsonValue.jnum 4),
         ("powerAvg", JsonValue.jnum 5), ("energyCounterIn", JsonValue.jnum 6),
         ("energyCounterOut", JsonValue.jnum 7), ("temp", JsonValue.jnum 8)] ∧
    coordinatorStep none (.httpResponse 200 (.parsed
        [("power", JsonValue.jnum 1), ("powerPhase1", JsonValue.jnum 2),
         ("powerPhase2", JsonValue.jnum 3), ("powerPhase3", JsonValue.jnum 4),
         ("powerAvg", JsonValue.jnum 5), ("energyCounterIn", JsonValue.jnum 6),
         ("energyCounterOut", JsonValue.jnum 7), ("temp", JsonValue.jnum 8)]))
      = some [("power", JsonValue.jnum 1), ("powerPhase1", JsonValue.jnum 2),
         ("powerPhase2", JsonValue.jnum 3), ("powerPhase3", JsonValue.jnum 4),
         ("powerAvg", JsonValue.jnum 5), ("energyCounterIn", JsonValue.jnum 6),
         ("energyCounterOut", JsonValue.jnum 7), ("temp", JsonValue.jnum 8)] := by
  have h := c6_success_installs_full_body none
      (.httpResponse 200 (.parsed
        [("power", JsonValue.jnum 1), ("powerPhase1", JsonValue.jnum 2),
         ("powerPhase2", JsonValue.jnum 3), ("powerPhase3", JsonValue.jnum 4),
         ("powerAvg", JsonValue.jnum 5), ("energyCounterIn", JsonValue.jnum 6),
         ("energyCounterOut", JsonValue.jnum 7), ("temp", JsonValue.jnum 8)]))
      [("power", JsonValue.jnum 1), ("powerPhase1", JsonValue.jnum 2),
       ("powerPhase2", JsonValue.jnum 3), ("powerPhase3", JsonValue.jnum 4),
       ("powerAvg", JsonValue.jnum 5), ("energyCounterIn", JsonValue.jnum 6),
       ("energyCounterOut", JsonValue.jnum 7), ("temp", JsonValue.jnum 8)] rfl
  exact ⟨h.1, h.2.1⟩

/-- C7: after two consecutive successful polls the snapshot is exactly the
mapping of the second poll, independent of the earlier state: any key absent
from the second body — even one present in the first body — is absent from
the resulting snapshot. -/
theorem c7_wholesale_replacement (st : Option Snapshot) (r1 r2 : FetchOutcome)
    (d1 d2 : Snapshot) (h1 : _async_update_data r1 = .ok d1)
    (h2 : _async_update_data r2 = .ok d2) :
    coordinatorStep st r1 = some d1 ∧
    coordinatorStep (coordinatorStep st r1) r2 = some d2 ∧
    ∀ k s, coordinatorStep (coordinatorStep st r1) r2 = some s →
      dictContains s k = false → dictGet s k = none := by
  have hstep : coordinatorStep (coordinatorStep st r1) r2 = some d2 := by
    simp [coordinatorStep, h2]
  refine ⟨by simp [coordinatorStep, h1], hstep, ?_⟩
  intro k s _ hk
  cases hd : dictGet s k with
  | none => rfl
  | some v =>
    simp [dictContains, hd] at hk

/-- C7 witness: the first poll's body carries an extra key `extra`; after the
second poll (whose body lacks it) the snapshot is exactly the second body and
`extra` is gone. -/
theorem c7_wholesale_replacement_witness :
    coordinatorStep
        (coordinatorStep none (.httpResponse 200 (.parsed
          [("power", JsonValue.jnum 1), ("powerPhase1", JsonValue.jnum 2),
           ("powerPhase2", JsonValue.jnum 3), ("powerPhase3", JsonValue.jnum 4),
           ("powerAvg", JsonValue.jnum 5), ("energyCounterIn", JsonValue.jnum 6),
           ("energyCounterOut", JsonValue.jnum 7), ("extra", JsonValue.jnum 8)])))
        (.httpResponse 200 (.parsed
          [("power", JsonValue.jnum 11), ("powerPhase1", JsonValue.jnum 12),
           ("powerPhase2", JsonValue.jnum 13), ("powerPhase3", JsonValue.jnum 14),
           ("powerAvg", JsonValue.jnum 15), ("energyCounterIn", JsonValue.jnum 16),
           ("energyCounterOut", JsonValue.jnum 17)]))
      = some [("power", JsonValue.jnum 11), ("powerPhase1", JsonValue.jnum 12),
           ("powerPhase2", JsonValue.jnum 13), ("powerPhase3", JsonValue.jnum 14),
           ("powerAvg", JsonValue.jnum 15), ("energyCounterIn", JsonValue.jnum 16),
           ("energyCounterOut", JsonValue.jnum 17)] ∧
    dictGet [("power", JsonValue.jnum 11), ("powerPhase1", JsonValue.jnum 12),
           ("powerPhase2", JsonValue.jnum 13), ("powerPhase3", JsonValue.jnum 14),
           ("powerAvg", JsonValue.jnum 15), ("energyCounterIn", JsonValue.jnum 16),
           ("energyCounterOut", JsonValue.jnum 17)] "extra" = none := by
  have h := c7_wholesale_replacement none
      (.httpResponse 200 (.parsed
        [("power", JsonValue.jnum 1), ("powerPhase1", JsonValue.jnum 2),
         ("powerPhase2", JsonValue.jnum 3), ("powerPhase3", JsonValue.jnum 4),
         ("powerAvg", JsonValue.jnum 5), ("energyCounterIn", JsonValue.jnum 6),
         ("energyCounterOut", JsonValue.jnum 7), ("extra", JsonValue.jnum 8)]))
      (.httpResponse 200 (.parsed
        [("power", JsonValue.jnum 11), ("powerPhase1", JsonValue.jnum 12),
         ("powerPhase2", JsonValue.jnum 13), ("powerPhase3", JsonValue.jnum 14),
         ("powerAvg", JsonValue.jnum 15), ("energyCounterIn", JsonValue.jnum 16),
         ("energyCounterOut", JsonValue.jnum 17)]))
      [("power", JsonValue.jnum 1), ("powerPhase1", JsonValue.jnum 2),
       ("powerPhase2", JsonValue.jnum 3), ("powerPhase3", JsonValue.jnum 4),
       ("powerAvg", JsonValue.jnum 5), ("energyCounterIn", JsonValue.jnum 6),
       ("energyCounterOut", JsonValue.jnum 7), ("extra", JsonValue.jnum 8)]
      [("power", JsonValue.jnum 11), ("powerPhase1", JsonValue.jnum 12),
       ("powerPhase2", JsonValue.jnum 13), ("powerPhase3", JsonValue.jnum 14),
       ("powerAvg", JsonValue.jnum 15), ("energyCounterIn", JsonValue.jnum 16),
       ("energyCounterOut", JsonValue.jnum 17)] rfl rfl
  exact ⟨h.2.1, h.2.2 "extra" _ h.2.1 (by decide)⟩

/-- C8 counterexample: the probe and the coordinator do not run the same
check. A body with exactly `power`, `energyCounterIn`, `energyCounterOut` is
accepted by `validate_input` but rejected by the coordinator poll; moreover
the probe fetches the root URL while the coordinator fetches `/v1/json`, and
the two required-key lists differ. -/
theorem c8_probe_weaker_than_coordinator :
    validate_input "192.168.1.2" (.httpResponse 200 (.parsed
        [("power", JsonValue.jnum 1), ("energyCounterIn", JsonValue.jnum 2),
         ("energyCounterOut", JsonValue.jnum 3)]))
      = .ok "Ecotracker (192.168.1.2)" ∧
    _async_update_data (.httpResponse 200 (.parsed
        [("power", JsonValue.jnum 1), ("energyCounterIn", JsonValue.jnum 2),
         ("energyCounterOut", JsonValue.jnum 3)]))
      = .error "Unexpected error: Missing required keys in response" ∧
    probeUrl "192.168.1.2" ≠ coordinatorUrl "192.168.1.2" ∧
    PROBE_REQUIRED_KEYS ≠ API_RESPONSE_JSON_KEYS :=
  ⟨rfl, rfl, by decide, by decide⟩

/-- C8 (amended): the probe's check is strictly weaker than the coordinator's:
its required-key list is a subset of `API_RESPONSE_JSON_KEYS` (and it fetches
the root path instead of `/v1/json`), so any response body the coordinator
poll accepts, `validate_input` also accepts — but not conversely. -/
theorem c8_coordinator_accept_implies_probe_accept (ip : String)
    (resp : FetchOutcome) (d : Snapshot) (h : _async_update_data resp = .ok d) :
    validate_input ip resp = .ok ("Ecotracker (" ++ ip ++ ")") := by
  obtain ⟨hr, hall⟩ := updateData_ok_inversion resp d h
  subst hr
  have hmem : ∀ k ∈ API_RESPONSE_JSON_KEYS, dictContains d k = true := by
    intro k hk
    simpa using List.all_eq_true.mp hall k hk
  have hp : PROBE_REQUIRED_KEYS.all (fun key => dictContains d key) = true := by
    refine List.all_eq_true.mpr ?_
    intro k hk
    simp only [PROBE_REQUIRED_KEYS, List.mem_cons, List.not_mem_nil, or_false] at hk
    rcases hk with rfl | rfl | rfl
    · simpa using hmem "power" (by decide)
    · simpa using hmem "energyCounterIn" (by decide)
    · simpa using hmem "energyCounterOut" (by decide)
  simp [validate_input, probeTryBody, hp]

/-- C8 witness: a full seven-key body accepted by the coordinator is also
accepted by the probe. -/
theorem c8_coordinator_accept_implies_probe_accept_witness :
    validate_input "192.168.1.2" (.httpResponse 200 (.parsed
        [("power", JsonValue.jnum 1), ("powerPhase1", JsonValue.jnum 2),
         ("powerPhase2", JsonValue.jnum 3), ("powerPhase3", JsonValue.jnum 4),
         ("powerAvg", JsonValue.jnum 5), ("energyCounterIn", JsonValue.jnum 6),
         ("energyCounterOut", JsonValue.jnum 7)]))
      = .ok ("Ecotracker (" ++ "192.168.1.2" ++ ")") :=
  c8_coordinator_accept_implies_probe_accept "192.168.1.2"
    (.httpResponse 200 (.parsed
        [("power", JsonValue.jnum 1), ("powerPhase1", JsonValue.jnum 2),
         ("powerPhase2", JsonValue.jnum 3), ("powerPhase3", JsonValue.jnum 4),
         ("powerAvg", JsonValue.jnum 5), ("energyCounterIn", JsonValue.jnum 6),
         ("energyCounterOut", JsonValue.jnum 7)]))
    [("power", JsonValue.jnum 1), ("powerPhase1", JsonValue.jnum 2),
     ("powerPhase2", JsonValue.jnum 3), ("powerPhase3", JsonValue.jnum 4),
     ("powerAvg", JsonValue.jnum 5), ("energyCounterIn", JsonValue.jnum 6),
     ("energyCounterOut", JsonValue.jnum 7)] rfl

/-- C9: the `scan_interval` field of `STEP_USER_DATA_SCHEMA` accepts a value
exactly when it coerces to an integer in 1..3600 (the accepted value being
the coerced integer), defaults to 5 when the field is omitted, and rejects
out-of-range or uncoercible values. -/
theorem c9_scan_interval_schema :
    validateScanIntervalField none = some DEFAULT_SCAN_INTERVAL ∧
    (∀ v n, coerceInt v = some n →
      (validateScanIntervalField (some v) = some n ↔ (1 ≤ n ∧ n ≤ 3600))) ∧
    (∀ v, coerceInt v = none → validateScanIntervalField (some v) = none) ∧
    (∀ v m, validateScanIntervalField (some v) = some m →
      coerceInt v = some m ∧ 1 ≤ m ∧ m ≤ 3600) := by
  refine ⟨rfl, ?_, ?_, ?_⟩
  · intro v n h
    by_cases hr : (1:Int) ≤ n ∧ n ≤ 3600
    · simp [validateScanIntervalField, h, volRange, hr]
    · simp [validateScanIntervalField, h, volRange, hr]
  · intro v h
    simp [validateScanIntervalField, h]
  · intro v m h
    cases hc : coerceInt v with
    | none =>
      rw [show validateScanIntervalField (some v)
            = (coerceInt v).bind (volRange 1 3600) from rfl, hc] at h
      simp at h
    | some n =>
      have h2 : volRange 1 3600 n = some m := by
        rw [show validateScanIntervalField (some v)
              = (coerceInt v).bind (volRange 1 3600) from rfl, hc] at h
        exact h
      unfold volRange at h2
      split at h2
      · rename_i hr
        cases h2
        exact ⟨rfl, hr.1, hr.2⟩
      · exact absurd h2 (by simp)

/-- C9 witness: the string input "10" coerces to 10 and is accepted; omitting
the field yields the default 5. -/
theorem c9_scan_interval_schema_witness :
    validateScanIntervalField (some (VolValue.vstr "10")) = some 10 ∧
    validateScanIntervalField none = some 5 :=
  ⟨(c9_scan_interval_schema.2.1 (VolValue.vstr "10") 10 (by rfl)).mpr (by decide),
   c9_scan_interval_schema.1⟩

/-- C10: the coordinator's validation checks only key presence, never value
types: any parsed body containing every key of `API_RESPONSE_JSON_KEYS` is
accepted verbatim regardless of the values, and the `power` reader then
returns the stored value unchanged — numeric or not. -/
theorem c10_validation_checks_keys_only (data : Snapshot)
    (h : API_RESPONSE_JSON_KEYS.all (fun key => dictContains data key) = true) :
    _async_update_data (.httpResponse 200 (.parsed data)) = .ok data ∧
    ∀ st, EcotrackerPowerSensor.native_value
        (coordinatorStep st (.httpResponse 200 (.parsed data)))
      = .ok (dictGet data "power") := by
  have hu : _async_update_data (.httpResponse 200 (.parsed data)) = .ok data := by
    simp [_async_update_data, coordinatorTryBody, h]
  refine ⟨hu, fun st => ?_⟩
  simp [coordinatorStep, hu, EcotrackerPowerSensor.native_value, coordinatorDataGet]

/-- C10 witness: a body whose required fields hold a string, null, a boolean,
a list and an object still passes validation, and the `power` reader returns
the string value unchanged. -/
theorem c10_validation_checks_keys_only_witness :
    _async_update_data (.httpResponse 200 (.parsed
        [("power", JsonValue.jstr "n/a"), ("powerPhase1", JsonValue.jnull),
         ("powerPhase2", JsonValue.jbool true), ("powerPhase3", JsonValue.jarr []),
         ("powerAvg", JsonValue.jobj []), ("energyCounterIn", JsonValue.jstr "x"),
         ("energyCounterOut", JsonValue.jnull)]))
      = .ok [("power", JsonValue.jstr "n/a"), ("powerPhase1", JsonValue.jnull),
         ("powerPhase2", JsonValue.jbool true), ("powerPhase3", JsonValue.jarr []),
         ("powerAvg", JsonValue.jobj []), ("energyCounterIn", JsonValue.jstr "x"),
         ("energyCounterOut", JsonValue.jnull)] ∧
    EcotrackerPowerSensor.native_value
        (coordinatorStep none (.httpResponse 200 (.parsed
          [("power", JsonValue.jstr "n/a"), ("powerPhase1", JsonValue.jnull),
           ("powerPhase2", JsonValue.jbool true), ("powerPhase3", JsonValue.jarr []),
           ("powerAvg", JsonValue.jobj []), ("energyCounterIn", JsonValue.jstr "x"),
           ("energyCounterOut", JsonValue.jnull)])))
      = .ok (some (JsonValue.jstr "n/a")) := by
  have h := c10_validation_checks_keys_only
      [("power", JsonValue.jstr "n/a"), ("powerPhase1", JsonValue.jnull),
       ("powerPhase2", JsonValue.jbool true), ("powerPhase3", JsonValue.jarr []),
       ("powerAvg", JsonValue.jobj []), ("energyCounterIn", JsonValue.jstr "x"),
       ("energyCounterOut", JsonValue.jnull)] (by decide)
  exact ⟨h.1, (h.2 none).trans (by rfl)⟩

end Ecotracker
